import Mathlib

/-!
# Verification of the ASD binary file codec

This development gives a shallow embedding of the ASD spectroradiometer file
codec implemented in `fileIO/SpectInstrulment/ASD/asdFileHandle_1.py`
(`class ASDFile`), and settles the specification claims about it.

Conventions of the embedding:
* a byte stream is a `List Nat` whose elements are byte values `0..255`;
* Python `struct` fixed-width integers are decoded into `Nat` (unsigned
  formats `H`, `L`) or `Int` (signed formats `b`, `h`, `l`, `q`), always
  little-endian as in the source format strings;
* IEEE-754 `float`/`double` cells are kept as their raw little-endian byte
  groups (4 or 8 bytes): the Python code only ever converts such a cell
  bytes → float → bytes, which is the identity on the byte level, and the
  numeric derivations (normalisation, reflectance) are modelled separately
  over `ℚ`;
* code that raises an exception which a surrounding `except` converts into a
  `None` result is modelled with `Option`, `none` standing for the caught
  failure;
* `datetime.fromtimestamp` followed by `int(….timestamp())` is the identity
  on in-range integers, so raw POSIX timestamp fields are kept as `Int`.
-/

set_option maxRecDepth 8000

namespace ASDFile

/-! ## Byte-level primitives -/

/-- `s[i]` for a byte list; all uses are guarded by explicit bounds checks
mirroring `struct.unpack_from`, so the default value is never observed. -/
def byteAt (s : List Nat) (i : Nat) : Nat := s.getD i 0

/-- Python slice `s[a : a+n]` (clamped at the end of the list). -/
def sliceAt (s : List Nat) (a n : Nat) : List Nat := (s.drop a).take n

/-- `struct.unpack_from` bounds requirement: reading `n` bytes at `off`
needs `off + n ≤ len(s)`; otherwise `struct.error` is raised. -/
def readBytesAt (s : List Nat) (off n : Nat) : Option (List Nat) :=
  if off + n ≤ s.length then some (sliceAt s off n) else none

/-- Little-endian unsigned 16-bit value of two bytes. -/
def u16 (b0 b1 : Nat) : Nat := b0 + 256 * b1

/-- Reinterpret an unsigned 16-bit value as signed (`struct` format `h`). -/
def asInt16 (n : Nat) : Int := if n < 32768 then (n : Int) else (n : Int) - 65536

/-- Reinterpret an unsigned 8-bit value as signed (`struct` format `b`). -/
def asInt8 (n : Nat) : Int := if n < 128 then (n : Int) else (n : Int) - 256

/-- Reinterpret an unsigned 32-bit value as signed (`struct` format `l`). -/
def asInt32 (n : Nat) : Int :=
  if n < 2147483648 then (n : Int) else (n : Int) - 4294967296

/-- Reinterpret an unsigned 64-bit value as signed (`struct` format `q`). -/
def asInt64 (n : Nat) : Int :=
  if n < 9223372036854775808 then (n : Int) else (n : Int) - 18446744073709551616

/-- Unsigned 16-bit little-endian read at byte offset `a` of `s`. -/
def u16At (s : List Nat) (a : Nat) : Nat := u16 (byteAt s a) (byteAt s (a + 1))

/-- Signed 16-bit little-endian read (`h`). -/
def i16At (s : List Nat) (a : Nat) : Int := asInt16 (u16At s a)

/-- Signed 8-bit read (`b`). -/
def i8At (s : List Nat) (a : Nat) : Int := asInt8 (byteAt s a)

/-- Unsigned 32-bit little-endian read (`L`). -/
def u32At (s : List Nat) (a : Nat) : Nat :=
  byteAt s a + 256 * byteAt s (a + 1) + 65536 * byteAt s (a + 2) +
    16777216 * byteAt s (a + 3)

/-- Signed 32-bit little-endian read (`l`). -/
def i32At (s : List Nat) (a : Nat) : Int := asInt32 (u32At s a)

/-- Unsigned 64-bit little-endian read. -/
def u64At (s : List Nat) (a : Nat) : Nat :=
  u32At s a + 4294967296 * u32At s (a + 4)

/-- Signed 64-bit little-endian read (`q`). -/
def i64At (s : List Nat) (a : Nat) : Int := asInt64 (u64At s a)

/-- `struct.pack('b', …)` accepts exactly this range (the upper check is
phrased `¬ 128 ≤ i`, i.e. `i < 128`). -/
def int8Range (i : Int) : Prop := -128 ≤ i ∧ ¬ (128 : Int) ≤ i

/-- `struct.pack('h', …)` range. -/
def int16Range (i : Int) : Prop := -32768 ≤ i ∧ ¬ (32768 : Int) ≤ i

/-- `struct.pack('l'/'i', …)` range. -/
def int32Range (i : Int) : Prop := -2147483648 ≤ i ∧ ¬ (2147483648 : Int) ≤ i

/-- `struct.pack('q', …)` range. -/
def int64Range (i : Int) : Prop :=
  -9223372036854775808 ≤ i ∧ ¬ (9223372036854775808 : Int) ≤ i

/-- `struct.pack('H', …)` range. -/
def u16Range (n : Nat) : Prop := n < 65536

/-- `struct.pack('L'/'I', …)` range. -/
def u32Range (n : Nat) : Prop := n < 4294967296

instance (i : Int) : Decidable (int8Range i) := by unfold int8Range; infer_instance
instance (i : Int) : Decidable (int16Range i) := by unfold int16Range; infer_instance
instance (i : Int) : Decidable (int32Range i) := by unfold int32Range; infer_instance
instance (i : Int) : Decidable (int64Range i) := by unfold int64Range; infer_instance
instance (n : Nat) : Decidable (u16Range n) := by unfold u16Range; infer_instance
instance (n : Nat) : Decidable (u32Range n) := by unfold u32Range; infer_instance

/-- Two's-complement signed byte emission. -/
def enc8 (i : Int) : List Nat := [(i % 256).toNat]

/-- Two's-complement signed 16-bit little-endian emission. -/
def enc16 (i : Int) : List Nat := [(i % 65536).toNat % 256, (i % 65536).toNat / 256]

/-- Unsigned 16-bit little-endian emission. -/
def enc16N (n : Nat) : List Nat := [n % 256, n / 256]

/-- Two's-complement signed 32-bit little-endian emission. -/
def enc32 (i : Int) : List Nat :=
  [(i % 4294967296).toNat % 256, (i % 4294967296).toNat / 256 % 256,
   (i % 4294967296).toNat / 65536 % 256, (i % 4294967296).toNat / 16777216]

/-- Unsigned 32-bit little-endian emission. -/
def enc32N (n : Nat) : List Nat :=
  [n % 256, n / 256 % 256, n / 65536 % 256, n / 16777216]

/-- Two's-complement signed 64-bit little-endian emission. -/
def enc64 (i : Int) : List Nat :=
  enc32N ((i % 18446744073709551616).toNat % 4294967296) ++
    enc32N ((i % 18446744073709551616).toNat / 4294967296)

/-- `struct.pack('b', i)`: range-checked signed byte. -/
def packI8 (i : Int) : Option (List Nat) :=
  if int8Range i then some (enc8 i) else none

/-- `struct.pack('<h', i)`: range-checked signed 16-bit little-endian. -/
def packI16 (i : Int) : Option (List Nat) :=
  if int16Range i then some (enc16 i) else none

/-- `struct.pack('H', n)`: range-checked unsigned 16-bit little-endian. -/
def packU16 (n : Nat) : Option (List Nat) :=
  if u16Range n then some (enc16N n) else none

/-- `struct.pack('<l', i)`: range-checked signed 32-bit little-endian. -/
def packI32 (i : Int) : Option (List Nat) :=
  if int32Range i then some (enc32 i) else none

/-- `struct.pack('L', n)`: range-checked unsigned 32-bit little-endian. -/
def packU32 (n : Nat) : Option (List Nat) :=
  if u32Range n then some (enc32N n) else none

/-- `struct.pack('Ns', b)`: a fixed-width byte field is silently truncated to
`N` bytes and zero-padded up to `N` bytes, so the output always has length
`N` (the Python code additionally calls `.ljust(N, b'\x00')` first, which
this absorbs). -/
def packBytesFixed (n : Nat) (b : List Nat) : List Nat :=
  b.take n ++ List.replicate (n - b.length) 0

/-- An IEEE-754 cell of `n` raw bytes; packing it back is the identity on the
byte level provided the stored cell is well-formed. -/
def packFloatCell (n : Nat) (b : List Nat) : Option (List Nat) :=
  if b.length = n then some b else none

/-- `bytes.strip(b'\x00')`: remove zero bytes from both ends. -/
def strip0 (b : List Nat) : List Nat :=
  ((b.dropWhile (fun x => x = 0)).reverse.dropWhile (fun x => x = 0)).reverse

/-! ## UTF-8 (used by `str.encode('utf-8')` / `bytes.decode('utf-8')`)

A Python string is modelled as its list of Unicode code points.  The encoder
fails (Python `UnicodeEncodeError`) on surrogates and out-of-range values;
the decoder is the strict UTF-8 decoder (rejecting overlong forms,
surrogates, and values above `U+10FFFF`), expressed arithmetically. -/

/-- `str.encode('utf-8')` for one code point. -/
def utf8EncodeChar (c : Nat) : Option (List Nat) :=
  if c < 128 then some [c]
  else if c < 2048 then some [192 + c / 64, 128 + c % 64]
  else if c < 65536 then
    if 55296 ≤ c ∧ c < 57344 then none
    else some [224 + c / 4096, 128 + c / 64 % 64, 128 + c % 64]
  else if c < 1114112 then
    some [240 + c / 262144, 128 + c / 4096 % 64, 128 + c / 64 % 64, 128 + c % 64]
  else none

/-- `str.encode('utf-8')` for a whole string. -/
def utf8EncodeList : List Nat → Option (List Nat)
  | [] => some []
  | c :: t => do
    let b ← utf8EncodeChar c
    let r ← utf8EncodeList t
    some (b ++ r)

/-- Strict `bytes.decode('utf-8')`: the byte-range conditions on the lead and
continuation bytes plus the arithmetic conditions (minimal value per length,
no surrogates, max `U+10FFFF`) are exactly the strict UTF-8 acceptance rules
Python applies. -/
def utf8Decode : List Nat → Option (List Nat)
  | [] => some []
  | b0 :: t =>
    if b0 < 128 then (utf8Decode t).map (fun r => b0 :: r)
    else if 192 ≤ b0 ∧ b0 ≤ 223 then
      if 1 ≤ t.length then
        if 128 ≤ byteAt t 0 ∧ byteAt t 0 ≤ 191 ∧
            128 ≤ (b0 - 192) * 64 + (byteAt t 0 - 128) then
          (utf8Decode (t.drop 1)).map (fun r => ((b0 - 192) * 64 + (byteAt t 0 - 128)) :: r)
        else none
      else none
    else if 224 ≤ b0 ∧ b0 ≤ 239 then
      if 2 ≤ t.length then
        if 128 ≤ byteAt t 0 ∧ byteAt t 0 ≤ 191 ∧ 128 ≤ byteAt t 1 ∧ byteAt t 1 ≤ 191 ∧
            2048 ≤ (b0 - 224) * 4096 + (byteAt t 0 - 128) * 64 + (byteAt t 1 - 128) ∧
            ¬ (55296 ≤ (b0 - 224) * 4096 + (byteAt t 0 - 128) * 64 + (byteAt t 1 - 128) ∧
               (b0 - 224) * 4096 + (byteAt t 0 - 128) * 64 + (byteAt t 1 - 128) < 57344) then
          (utf8Decode (t.drop 2)).map
            (fun r => ((b0 - 224) * 4096 + (byteAt t 0 - 128) * 64 + (byteAt t 1 - 128)) :: r)
        else none
      else none
    else if 240 ≤ b0 ∧ b0 ≤ 247 then
      if 3 ≤ t.length then
        if 128 ≤ byteAt t 0 ∧ byteAt t 0 ≤ 191 ∧ 128 ≤ byteAt t 1 ∧ byteAt t 1 ≤ 191 ∧
            128 ≤ byteAt t 2 ∧ byteAt t 2 ≤ 191 ∧
            65536 ≤ (b0 - 240) * 262144 + (byteAt t 0 - 128) * 4096 +
              (byteAt t 1 - 128) * 64 + (byteAt t 2 - 128) ∧
            (b0 - 240) * 262144 + (byteAt t 0 - 128) * 4096 +
              (byteAt t 1 - 128) * 64 + (byteAt t 2 - 128) < 1114112 then
          (utf8Decode (t.drop 3)).map
            (fun r => ((b0 - 240) * 262144 + (byteAt t 0 - 128) * 4096 +
              (byteAt t 1 - 128) * 64 + (byteAt t 2 - 128)) :: r)
        else none
      else none
    else none
termination_by l => l.length
decreasing_by
  all_goals simp [List.length_drop]
  all_goals omega

/-! ## Sentinel boolean codec and length-prefixed string codec -/

/-- `ASDFile.__parse_Bool` (source lines 795–806): reads the two bytes
`stream[offset : offset+2]`, recognizing exactly the sentinels
`FF FF → True` and `00 00 → False`; anything else raises `ValueError`,
which the surrounding `except` converts to a `(None, None)` result,
modelled as `none`.  The leading bounds check is the `@__check_offset`
decorator. -/
def __parse_Bool (s : List Nat) (offset : Nat) : Option (Bool × Nat) :=
  if offset < s.length then
    if sliceAt s offset 2 = [255, 255] then some (true, offset + 2)
    else if sliceAt s offset 2 = [0, 0] then some (false, offset + 2)
    else none
  else none

/-- `ASDFile.__wrap_Bool` (source lines 808–819). -/
def __wrap_Bool (b : Bool) : List Nat × Nat :=
  (if b then [255, 255] else [0, 0], 2)

/-- `ASDFile.__parse_bstr` (source lines 762–776): signed 16-bit length
prefix, then that many bytes decoded as UTF-8.  A negative length makes
`struct.calcsize('<-ns')` raise `struct.error`, caught as `(None, None)`;
a short buffer raises `struct.error` likewise.  (A `UnicodeDecodeError`
from `.decode('utf-8')` is *not* caught by the `except struct.error`
clause and propagates to the calling section parser; both outcomes are
failures of this parse and are modelled as `none`.)  The decoded Python
string is modelled as its list of code points. -/
def __parse_bstr (s : List Nat) (offset : Nat) : Option (List Nat × Nat) :=
  if offset < s.length then
    match readBytesAt s offset 2 with
    | none => none
    | some szb =>
      if 0 ≤ i16At szb 0 then
        match readBytesAt s (offset + 2) (i16At szb 0).toNat with
        | none => none
        | some payload =>
          match utf8Decode payload with
          | none => none
          | some cps => some (cps, offset + 2 + (i16At szb 0).toNat)
      else none
  else none

/-- `ASDFile.__wrap_bstr` (source lines 778–793), for `str` input: UTF-8
encode, then emit `struct.pack('h', len)` followed by the bytes.
`struct.pack('h', …)` raises `struct.error` for a byte length above
32767, caught as `(None, None)`. -/
def __wrap_bstr (string : List Nat) : Option (List Nat × Nat) := do
  let bstr ← utf8EncodeList string
  let szb ← packI16 (Int.ofNat bstr.length)
  some (szb ++ bstr, (szb ++ bstr).length)

/-! ## Calendar timestamps (`datetime.datetime`)

`datetime.datetime(year, month, day, hour, minute, second)` validates its
arguments and raises `ValueError` outside the ranges below.  `weekday()`
(Monday = 0) and day-of-year are recomputed from the proleptic Gregorian
calendar exactly as `datetime.date.toordinal` does. -/

/-- A `datetime.datetime` value (microseconds unused by this codec). -/
structure PyDateTime where
  year : Nat
  month : Nat
  day : Nat
  hour : Nat
  minute : Nat
  second : Nat
deriving DecidableEq, Inhabited

/-- Gregorian leap year. -/
def isLeapYear (y : Nat) : Bool :=
  (y % 4 = 0 ∧ ¬ y % 100 = 0) ∨ y % 400 = 0

/-- Days in month `m` (1–12) of year `y`. -/
def daysInMonth (y m : Nat) : Nat :=
  if m = 2 then (if isLeapYear y then 29 else 28)
  else if m = 4 ∨ m = 6 ∨ m = 9 ∨ m = 11 then 30
  else 31

/-- Days in year `y` before the first day of month `m`. -/
def daysBeforeMonth (y m : Nat) : Nat :=
  ((List.range (m - 1)).map (fun i => daysInMonth y (i + 1))).sum

/-- `(when.date() - datetime.date(when.year, 1, 1)).days`: zero-based day of
the year. -/
def pyDayOfYear (dt : PyDateTime) : Nat :=
  daysBeforeMonth dt.year dt.month + dt.day - 1

/-- `datetime.date.toordinal`: day count with 0001-01-01 as day 1. -/
def pyToOrdinal (dt : PyDateTime) : Nat :=
  365 * (dt.year - 1) + (dt.year - 1) / 4 - (dt.year - 1) / 100 +
    (dt.year - 1) / 400 + pyDayOfYear dt + 1

/-- `datetime.datetime.weekday()`: Monday = 0 … Sunday = 6. -/
def pyWeekday (dt : PyDateTime) : Nat := (pyToOrdinal dt + 6) % 7

/-- The `datetime.datetime(…)` constructor with its range validation;
`none` models the raised `ValueError`. -/
def mkPyDateTime (year month day hour minute second : Int) : Option PyDateTime :=
  if 1 ≤ year ∧ year ≤ 9999 ∧ 1 ≤ month ∧ month ≤ 12 ∧
      1 ≤ day ∧ day ≤ (daysInMonth year.toNat month.toNat : Int) ∧
      0 ≤ hour ∧ hour ≤ 23 ∧ 0 ≤ minute ∧ minute ≤ 59 ∧
      0 ≤ second ∧ second ≤ 59 then
    some ⟨year.toNat, month.toNat, day.toNat, hour.toNat, minute.toNat, second.toNat⟩
  else none

/-- `ASDFile.__parse_ASDFilewhen` (source lines 915–928): the 9 shorts of
the `when` field are `(seconds, minutes, hour, day, month0, year, weekDay,
daysInYear, daylightSavingsFlag)`; a year below 1900 is offset by 1900, the
month is stored 0-based, and `datetime.datetime(…)` validates the result
(the stored weekday/day-of-year values are ignored). -/
def __parse_ASDFilewhen (w : List Int) : Option (PyDateTime × Int) :=
  (mkPyDateTime
      (if w.getD 5 0 < 1900 then w.getD 5 0 + 1900 else w.getD 5 0)
      (w.getD 4 0 + 1) (w.getD 3 0) (w.getD 2 0) (w.getD 1 0)
      (w.getD 0 0)).map
    (fun dt => (dt, w.getD 8 0))

/-- The nine shorts `ASDFile.__wrap_ASDFilewhen` packs, in order:
`(second, minute, hour, day, month−1, year−1900 when ≥ 1900, weekday
recomputed as `(weekday() + 1) % 7`, recomputed day-of-year, DST flag)`. -/
def whenShortsToPack (when : PyDateTime) (isDaylightSaving : Int) : List Int :=
  [(when.second : Int), (when.minute : Int), (when.hour : Int), (when.day : Int),
   (when.month : Int) - 1,
   (if 1900 ≤ when.year then ((when.year : Int) - 1900) else (when.year : Int)),
   (((pyWeekday when + 1) % 7 : Nat) : Int), ((pyDayOfYear when : Nat) : Int),
   isDaylightSaving]

/-- `ASDFile.__wrap_ASDFilewhen` (source lines 930–943): `struct.pack('9h', …)`
of the nine shorts above — it validates every value and emits 18 bytes. -/
def __wrap_ASDFilewhen (when : PyDateTime) (isDaylightSaving : Int) :
    Option (List Nat) :=
  if ∀ x ∈ whenShortsToPack when isDaylightSaving, int16Range x then
    some (((whenShortsToPack when isDaylightSaving).map enc16).flatten)
  else none

/-! ## Metadata codec

`ASDFile.__parse_metadata` / `ASDFile.__wrap_metadata` (source lines
248–352) use the single `struct` layout

`'<157s 18s b b b b l b l f f b b b b b H 128s 56s L h h H H f f f f h b
4b H H H b L H H H H f f 27s 5b'`

of total size 481.  Byte offsets inside the 481-byte record are written
explicitly below; `float` cells are kept as their raw 4-byte groups, and
the two POSIX timestamps as their raw signed 32-bit values (the
`datetime.fromtimestamp`/`timestamp()` pair is the identity on them). -/

/-- The in-memory `metadata` namedtuple (source lines 251–257), in the
source's field order.  `byteStream`/`byteStreamLength` are the recorded
raw-byte diagnostics (source lines 271–272). -/
structure Metadata where
  comments : List Nat
  when : PyDateTime
  daylighSavingsFlag : Int
  programVersion : Int
  fileVersion : Int
  iTime : Int
  darkCorrected : Int
  darkTime : Int
  dataType : Int
  referenceTime : Int
  channel1Wavelength : List Nat
  wavelengthStep : List Nat
  dataFormat : Int
  old_darkCurrentCount : Int
  old_refCount : Int
  old_sampleCount : Int
  application : Int
  channels : Nat
  appData_str : List Nat
  gpsData_str : List Nat
  intergrationTime_ms : Nat
  fo : Int
  darkCurrentCorrention : Int
  calibrationSeries : Nat
  instrumentNum : Nat
  yMin : List Nat
  yMax : List Nat
  xMin : List Nat
  xMax : List Nat
  ipNumBits : Int
  xMode : Int
  flags1 : Int
  flags2 : Int
  flags3 : Int
  flags4 : Int
  darkCurrentCount : Nat
  refCount : Nat
  sampleCount : Nat
  instrument : Int
  calBulbID : Nat
  swir1Gain : Nat
  swir2Gain : Nat
  swir1Offset : Nat
  swir2Offset : Nat
  splice1_wavelength : List Nat
  splice2_wavelength : List Nat
  smartDetectorType : List Nat
  spare1 : Int
  spare2 : Int
  spare3 : Int
  spare4 : Int
  spare5 : Int
  byteStream : List Nat
  byteStreamLength : Nat
deriving DecidableEq, Inhabited

/-- Decode the 50 metadata fields from the 481-byte record `block`; `bs` is
the recorded raw byte stream (`self.__asdFileStream[:484]`, source line
271).  The only fallible step is the `when` conversion. -/
def metadataOfBlock (block bs : List Nat) : Option Metadata :=
  match __parse_ASDFilewhen ((List.range 9).map (fun i => i16At block (157 + 2 * i))) with
  | none => none
  | some wd =>
    some { comments := strip0 (sliceAt block 0 157)   -- '157s', stripped of NULs
         , when := wd.1                                -- '18s' at 157, via 9 shorts
         , daylighSavingsFlag := wd.2
         , programVersion := i8At block 175            -- 'b'
         , fileVersion := i8At block 176               -- 'b'
         , iTime := i8At block 177                     -- 'b'
         , darkCorrected := i8At block 178             -- 'b'
         , darkTime := i32At block 179                 -- 'l' (POSIX seconds)
         , dataType := i8At block 183                  -- 'b'
         , referenceTime := i32At block 184            -- 'l' (POSIX seconds)
         , channel1Wavelength := sliceAt block 188 4   -- 'f'
         , wavelengthStep := sliceAt block 192 4       -- 'f'
         , dataFormat := i8At block 196                -- 'b'
         , old_darkCurrentCount := i8At block 197      -- 'b'
         , old_refCount := i8At block 198              -- 'b'
         , old_sampleCount := i8At block 199           -- 'b'
         , application := i8At block 200               -- 'b'
         , channels := u16At block 201                 -- 'H'
         , appData_str := sliceAt block 203 128        -- '128s'
         , gpsData_str := sliceAt block 331 56         -- '56s'
         , intergrationTime_ms := u32At block 387      -- 'L'
         , fo := i16At block 391                       -- 'h'
         , darkCurrentCorrention := i16At block 393    -- 'h'
         , calibrationSeries := u16At block 395        -- 'H'
         , instrumentNum := u16At block 397            -- 'H'
         , yMin := sliceAt block 399 4                 -- 'f'
         , yMax := sliceAt block 403 4                 -- 'f'
         , xMin := sliceAt block 407 4                 -- 'f'
         , xMax := sliceAt block 411 4                 -- 'f'
         , ipNumBits := i16At block 415                -- 'h'
         , xMode := i8At block 417                     -- 'b'
         , flags1 := i8At block 418                    -- '4b'
         , flags2 := i8At block 419
         , flags3 := i8At block 420
         , flags4 := i8At block 421
         , darkCurrentCount := u16At block 422         -- 'H'
         , refCount := u16At block 424                 -- 'H'
         , sampleCount := u16At block 426              -- 'H'
         , instrument := i8At block 428                -- 'b'
         , calBulbID := u32At block 429                -- 'L'
         , swir1Gain := u16At block 433                -- 'H'
         , swir2Gain := u16At block 435                -- 'H'
         , swir1Offset := u16At block 437              -- 'H'
         , swir2Offset := u16At block 439              -- 'H'
         , splice1_wavelength := sliceAt block 441 4   -- 'f'
         , splice2_wavelength := sliceAt block 445 4   -- 'f'
         , smartDetectorType := sliceAt block 449 27   -- '27s'
         , spare1 := i8At block 476                    -- '5b'
         , spare2 := i8At block 477
         , spare3 := i8At block 478
         , spare4 := i8At block 479
         , spare5 := i8At block 480
         , byteStream := bs
         , byteStreamLength := bs.length }

/-- `ASDFile.__parse_metadata` (source lines 248–286): the `@__check_offset`
guard, the 481-byte `struct.unpack_from` at `offset`, the `when`/timestamp
conversions, the recorded `ByteStream = stream[:484]`, and `offset += 481`.
Any conversion error is caught and returns `None`. -/
def __parse_metadata (s : List Nat) (offset : Nat) : Option (Metadata × Nat) :=
  if offset < s.length then
    if offset + 481 ≤ s.length then
      (metadataOfBlock (sliceAt s offset 481) (s.take 484)).map
        (fun md => (md, offset + 481))
    else none
  else none

/-- The signed-byte field values of the metadata layout, in order (the
`'b'`-format fields of the `struct.pack` call). -/
def mdInt8Fields (md : Metadata) : List Int :=
  [md.programVersion, md.fileVersion, md.iTime, md.darkCorrected, md.dataType,
   md.dataFormat, md.old_darkCurrentCount, md.old_refCount, md.old_sampleCount,
   md.application, md.xMode, md.flags1, md.flags2, md.flags3, md.flags4,
   md.instrument, md.spare1, md.spare2, md.spare3, md.spare4, md.spare5]

/-- The signed-16-bit field values (`'h'` fields). -/
def mdInt16Fields (md : Metadata) : List Int :=
  [md.fo, md.darkCurrentCorrention, md.ipNumBits]

/-- The unsigned-16-bit field values (`'H'` fields). -/
def mdU16Fields (md : Metadata) : List Nat :=
  [md.channels, md.calibrationSeries, md.instrumentNum, md.darkCurrentCount,
   md.refCount, md.sampleCount, md.swir1Gain, md.swir2Gain, md.swir1Offset,
   md.swir2Offset]

/-- The float cells (`'f'` fields), stored as raw 4-byte groups. -/
def mdFloatFields (md : Metadata) : List (List Nat) :=
  [md.channel1Wavelength, md.wavelengthStep, md.yMin, md.yMax, md.xMin, md.xMax,
   md.splice1_wavelength, md.splice2_wavelength]

/-- `struct.pack` validates every argument of the metadata layout; this is
the conjunction of those checks (byte-field range, short range, unsigned
range, 32-bit timestamp range, well-formed 4-byte float cells). -/
def mdFieldsInRange (md : Metadata) : Prop :=
  (∀ x ∈ mdInt8Fields md, int8Range x) ∧
  (∀ x ∈ mdInt16Fields md, int16Range x) ∧
  (∀ x ∈ mdU16Fields md, u16Range x) ∧
  int32Range md.darkTime ∧ int32Range md.referenceTime ∧
  u32Range md.intergrationTime_ms ∧ u32Range md.calBulbID ∧
  (∀ x ∈ mdFloatFields md, x.length = 4)

instance (md : Metadata) : Decidable (mdFieldsInRange md) := by
  unfold mdFieldsInRange; infer_instance

/-- The byte emission of the metadata `struct.pack` call, field group by
field group in layout order; `whenB` is the packed 18-byte `when` field. -/
def emitMetadataFmt (md : Metadata) (whenB : List Nat) : List Nat :=
  packBytesFixed 157 md.comments ++                    -- '157s' comments.ljust(157)
  whenB ++                                             -- '18s'
  enc8 md.programVersion ++ enc8 md.fileVersion ++     -- 'b b'
  enc8 md.iTime ++ enc8 md.darkCorrected ++            -- 'b b'
  enc32 md.darkTime ++                                 -- 'l'
  enc8 md.dataType ++                                  -- 'b'
  enc32 md.referenceTime ++                            -- 'l'
  md.channel1Wavelength ++ md.wavelengthStep ++        -- 'f f'
  enc8 md.dataFormat ++ enc8 md.old_darkCurrentCount ++
  enc8 md.old_refCount ++ enc8 md.old_sampleCount ++   -- 'b b b b'
  enc8 md.application ++                               -- 'b'
  enc16N md.channels ++                                -- 'H'
  packBytesFixed 128 md.appData_str ++                 -- '128s'
  packBytesFixed 56 md.gpsData_str ++                  -- '56s'
  enc32N md.intergrationTime_ms ++                     -- 'L'
  enc16 md.fo ++ enc16 md.darkCurrentCorrention ++     -- 'h h'
  enc16N md.calibrationSeries ++ enc16N md.instrumentNum ++ -- 'H H'
  md.yMin ++ md.yMax ++ md.xMin ++ md.xMax ++          -- 'f f f f'
  enc16 md.ipNumBits ++                                -- 'h'
  enc8 md.xMode ++                                     -- 'b'
  enc8 md.flags1 ++ enc8 md.flags2 ++ enc8 md.flags3 ++ enc8 md.flags4 ++ -- '4b'
  enc16N md.darkCurrentCount ++ enc16N md.refCount ++  -- 'H H'
  enc16N md.sampleCount ++                             -- 'H'
  enc8 md.instrument ++                                -- 'b'
  enc32N md.calBulbID ++                               -- 'L'
  enc16N md.swir1Gain ++ enc16N md.swir2Gain ++        -- 'H H'
  enc16N md.swir1Offset ++ enc16N md.swir2Offset ++    -- 'H H'
  md.splice1_wavelength ++ md.splice2_wavelength ++    -- 'f f'
  packBytesFixed 27 md.smartDetectorType ++            -- '27s'
  enc8 md.spare1 ++ enc8 md.spare2 ++ enc8 md.spare3 ++
  enc8 md.spare4 ++ enc8 md.spare5                     -- '5b'

/-- The single `struct.pack` call of `ASDFile.__wrap_metadata` (source
lines 291–344): every field value is validated, then the field groups are
emitted in layout order.  `none` models a `struct.error` (the `when` field
is packed by `__wrap_ASDFilewhen` first). -/
def packMetadataFmt (md : Metadata) : Option (List Nat) :=
  match __wrap_ASDFilewhen md.when md.daylighSavingsFlag with
  | none => none
  | some whenB =>
    if mdFieldsInRange md then some (emitMetadataFmt md whenB) else none

/-- `ASDFile.__wrap_metadata` (source lines 288–352): one `struct.pack` of
the whole layout, then the source's own `len(byteStream) == 481` check;
any other length (and any pack error) yields an error result rather than
output of another length. -/
def __wrap_metadata (md : Metadata) : Option (List Nat × Nat) :=
  match packMetadataFmt md with
  | none => none
  | some byteStream =>
    if byteStream.length = 481 then some (byteStream, 481) else none

/-! ## Spectrum codec, version tag, and the version-1 read/write pipeline -/

/-- `ASDFile.__parse_spectra` (source lines 711–721): unpack
`'<{channels}d'` at `offset` (doubles kept as raw 8-byte groups), advance
`offset` by `channels * 8`, and only then record
`stream[offset : offset + channels*8]` — i.e. the byte run *after* the
spectrum, not the spectrum's own bytes — together with its length.
`channels` is `self.metadata.channels` at the call sites. -/
def __parse_spectra (s : List Nat) (channels : Nat) (offset : Nat) :
    Option (List (List Nat) × List Nat × Nat × Nat) :=
  if offset < s.length then
    if offset + channels * 8 ≤ s.length then
      some ((List.range channels).map (fun i => sliceAt s (offset + 8 * i) 8),
            sliceAt s (offset + channels * 8) (channels * 8),
            (sliceAt s (offset + channels * 8) (channels * 8)).length,
            offset + channels * 8)
    else none
  else none

/-- The `spectrumData` namedtuple (source line 357). -/
structure SpectrumData where
  spectra : List (List Nat)
  byteStream : List Nat
  byteStreamLength : Nat
deriving DecidableEq, Inhabited

/-- `ASDFile.__parse_spectrumData` (source lines 354–364).  (When the inner
unpack raises, the source stores a record of `None` fields and returns a
`None` offset; that corner is collapsed to `none` here — no claim's input
reaches it.) -/
def __parse_spectrumData (s : List Nat) (channels : Nat) (offset : Nat) :
    Option (SpectrumData × Nat) :=
  if offset < s.length then
    match __parse_spectra s channels offset with
    | some (spectra, bs, bsl, off2) => some (⟨spectra, bs, bsl⟩, off2)
    | none => none
  else none

/-- `ASDFile.__wrap_spectra` (source lines 723–731):
`struct.pack('<{channels}d', *spectra)` — it errors unless exactly
`channels` doubles are supplied — and the reported length is
`channels * 8`. -/
def __wrap_spectra (channels : Nat) (spectra : List (List Nat)) :
    Option (List Nat × Nat) :=
  if spectra.length = channels ∧ ∀ c ∈ spectra, c.length = 8 then
    some (spectra.flatten, channels * 8)
  else none

/-- `ASDFile.__validate_fileVersion` (source lines 892–904): the first
three bytes select the version (`"ASD"` → 1, `"as2"`…`"as8"` → 2…8);
anything else raises and yields `(-1, 3)`. -/
def __validate_fileVersion (s : List Nat) : Int × Nat :=
  if s.take 3 = [65, 83, 68] then (1, 3)
  else if s.take 3 = [97, 115, 50] then (2, 3)
  else if s.take 3 = [97, 115, 51] then (3, 3)
  else if s.take 3 = [97, 115, 52] then (4, 3)
  else if s.take 3 = [97, 115, 53] then (5, 3)
  else if s.take 3 = [97, 115, 54] then (6, 3)
  else if s.take 3 = [97, 115, 55] then (7, 3)
  else if s.take 3 = [97, 115, 56] then (8, 3)
  else (-1, 3)

/-- `ASDFile.__setFileVersion` (source lines 906–912): `"ASD"` for version
1, `f"as{v}"` for higher versions (single-digit versions 2–8 in this
format). -/
def __setFileVersion (v : Int) : List Nat :=
  if v = 1 then [65, 83, 68] else [97, 115, 48 + v.toNat]

/-- The document state an `ASDFile` object holds after `read` on a
version-1 stream: the version, the two mandatory sections (absent when
their parse failed), and whether the trailing `FF FE FD` marker was seen
(`self.__bom`). -/
structure DocV1 where
  asdFileVersion : Int
  metadata : Option Metadata
  spectrumData : Option SpectrumData
  bom : Bool
deriving DecidableEq, Inhabited

/-- The body of `ASDFile.read` (source lines 82–151) after the trailing
marker has been stripped, restricted to streams whose tag resolves to
version ≤ 1 (the `version ≥ 2` branches do not execute for them).
Faithful control flow:
* `readSuccess` is set to `True` unconditionally at line 150, so the
  returned flag is `true` on every path, including metadata failure;
* when `__parse_metadata` fails (internally catching its exception and
  returning `None`), `self.metadata` stays `None`, the `np.arange`
  wavelength line raises `AttributeError` on it, and the `else` branch —
  the spectrum parse — is skipped;
* when metadata succeeds, `np.arange` on its finite float fields does not
  raise, and the spectrum section is parsed next. -/
def read_v1_core (stream : List Nat) (bom : Bool) : Bool × DocV1 :=
  if 0 < (__validate_fileVersion stream).1 then
    match __parse_metadata stream (__validate_fileVersion stream).2 with
    | some (md, off1) =>
      match __parse_spectrumData stream md.channels off1 with
      | some (sd, _off2) =>
        (true, ⟨(__validate_fileVersion stream).1, some md, some sd, bom⟩)
      | none => (true, ⟨(__validate_fileVersion stream).1, some md, none, bom⟩)
    | none => (true, ⟨(__validate_fileVersion stream).1, none, none, bom⟩)
  else (true, ⟨(__validate_fileVersion stream).1, none, none, bom⟩)

/-- `ASDFile.read` (source lines 69–151) for version-≤-1 streams: strip a
trailing `FF FE FD` marker if present (`stream[-3:]`, which for streams
shorter than 3 bytes is the whole stream, as in Python), then run the
section pipeline.  The returned `Bool` is `readSuccess`. -/
def read_v1 (stream0 : List Nat) : Bool × DocV1 :=
  if stream0.drop (stream0.length - 3) = [255, 254, 253] then
    read_v1_core (stream0.take (stream0.length - 3)) true
  else
    read_v1_core stream0 false

/-- `ASDFile.write` (source lines 156–237) for version-≤-1 documents (the
`version ≥ 2` blocks write nothing for them): the version tag, then the
metadata record if present, then the spectrum if present, then the
trailing marker if one was recorded.  A failing `__wrap_metadata` or
`__wrap_spectra` returns `(None, None)` to `write`, which then raises on
it (modelled `none`); `__wrap_spectra` reads `self.metadata.channels`, so
a document with a spectrum but no metadata also raises. -/
def write_v1 (d : DocV1) : Option (List Nat) :=
  if 0 < d.asdFileVersion then
    match d.metadata with
    | some md =>
      match __wrap_metadata md with
      | none => none
      | some (mdBytes, _) =>
        match d.spectrumData with
        | some sd =>
          match __wrap_spectra md.channels sd.spectra with
          | none => none
          | some (spBytes, _) =>
            some (__setFileVersion d.asdFileVersion ++ mdBytes ++ spBytes ++
              (if d.bom then [255, 254, 253] else []))
        | none =>
          some (__setFileVersion d.asdFileVersion ++ mdBytes ++
            (if d.bom then [255, 254, 253] else []))
    | none =>
      match d.spectrumData with
      | some _ => none
      | none =>
        some (__setFileVersion d.asdFileVersion ++
          (if d.bom then [255, 254, 253] else []))
  else some (if d.bom then [255, 254, 253] else [])

/-! ## A concrete version-1 sample file

A minimal well-formed version-1 stream: `"ASD"`, a 481-byte metadata
record (valid `when` field: 2024-01-01 00:00:00 stored as
`(0,0,0,1,0,124,1,0,0)`; `channels = 1`; finite float cells), and one
8-byte spectrum value. -/

/-- The 18-byte `when` field: seconds 0, minutes 0, hour 0, day 1,
month 0 (January), year 124 (+1900 = 2024), weekday 1, day-of-year 0,
DST flag 0 — all consistent with 2024-01-01, a Monday. -/
def sampleWhenBytes : List Nat :=
  [0, 0, 0, 0, 0, 0, 1, 0, 0, 0, 124, 0, 1, 0, 0, 0, 0, 0]

/-- The 481-byte metadata record of the sample file, field group by field
group. -/
def sampleMetaBytes : List Nat :=
  List.replicate 157 0 ++            -- comments
  sampleWhenBytes ++                 -- when
  [0, 0, 0, 0] ++                    -- programVersion fileVersion iTime darkCorrected
  [0, 0, 0, 0] ++                    -- darkTime = 0
  [0] ++                             -- dataType
  [0, 0, 0, 0] ++                    -- referenceTime = 0
  [0, 0, 128, 63] ++ [0, 0, 128, 63] ++ -- channel1Wavelength = 1.0f, wavelengthStep = 1.0f
  [0, 0, 0, 0] ++                    -- dataFormat old_darkCurrentCount old_refCount old_sampleCount
  [0] ++                             -- application
  [1, 0] ++                          -- channels = 1
  List.replicate 128 0 ++            -- appData
  List.replicate 56 0 ++             -- gpsData
  [2, 0, 0, 0] ++                    -- intergrationTime_ms = 2
  [0, 0] ++ [0, 0] ++                -- fo darkCurrentCorrention
  [0, 0] ++ [0, 0] ++                -- calibrationSeries instrumentNum
  List.replicate 16 0 ++             -- yMin yMax xMin xMax
  [0, 0] ++                          -- ipNumBits
  [0] ++                             -- xMode
  [0, 0, 0, 0] ++                    -- flags1-4
  [0, 0, 0, 0, 0, 0] ++              -- darkCurrentCount refCount sampleCount
  [0] ++                             -- instrument
  [0, 0, 0, 0] ++                    -- calBulbID
  [0, 8] ++ [0, 8] ++                -- swir1Gain swir2Gain = 2048
  [0, 0] ++ [0, 0] ++                -- swir1Offset swir2Offset
  [0, 0, 64, 64] ++ [0, 0, 224, 64] ++ -- splice1 = 3.0f, splice2 = 7.0f
  List.replicate 27 0 ++             -- smartDetectorType
  List.replicate 5 0                 -- spare1-5

/-- The 492-byte sample file: tag + metadata + one spectrum double. -/
def sampleStream : List Nat := [65, 83, 68] ++ sampleMetaBytes ++ [1, 2, 3, 4, 5, 6, 7, 8]

/-- The sample file with 4 trailing junk bytes (496 bytes). -/
def sampleStreamTrailing : List Nat := sampleStream ++ [9, 9, 9, 9]

/-- The metadata record decoded from the sample file. -/
def sampleMd : Metadata := ((__parse_metadata sampleStream 3).getD (default, 0)).1

/-- The bytes `__wrap_metadata` emits for the sample metadata record. -/
def sampleMdBytes : List Nat := ((__wrap_metadata sampleMd).getD ([], 0)).1

/-! ## Calibration-data dispatch (version ≥ 7) -/

/-- The four calibration series slots of the `ASDFile` object
(`calibrationSeriesABS/BSE/LMP/FO`, assigned at source lines 127–133);
each holds the unpacked spectrum array of a parsed calibration block. -/
structure CalibSlots where
  calibrationSeriesABS : Option (List (List Nat))
  calibrationSeriesBSE : Option (List (List Nat))
  calibrationSeriesLMP : Option (List (List Nat))
  calibrationSeriesFO : Option (List (List Nat))
deriving DecidableEq, Inhabited

/-- The calibration-data dispatch loop of `ASDFile.read` (source lines
123–133): iterate the calibration header's descriptor list
`(type, name, integrationTime, gain1, gain2)` in file order; for each
descriptor parse one spectrum at the running offset and assign it to the
slot selected by the type tag (0 → ABS, 1 → BSE, 2 → LMP, 3 → FO; any
other tag assigns nothing and leaves the offset unchanged).  A failed
parse assigns `None` to the slot and a `None` offset; the next iteration
then raises (the guard's 2-tuple cannot be unpacked into 4 variables) and
the surrounding `except` stops the loop, keeping the assignments already
made. -/
def dispatchCalibrationData (s : List Nat) (channels : Nat) :
    List (Int × List Nat × Int × Int × Int) → Option Nat → CalibSlots →
      CalibSlots × Option Nat
  | [], off, slots => (slots, off)
  | _ :: _, none, slots => (slots, none)
  | hdr :: rest, some off, slots =>
    if hdr.1 = 0 then
      match __parse_spectra s channels off with
      | some (sp, _, _, off2) =>
        dispatchCalibrationData s channels rest (some off2)
          { slots with calibrationSeriesABS := some sp }
      | none =>
        dispatchCalibrationData s channels rest none
          { slots with calibrationSeriesABS := none }
    else if hdr.1 = 1 then
      match __parse_spectra s channels off with
      | some (sp, _, _, off2) =>
        dispatchCalibrationData s channels rest (some off2)
          { slots with calibrationSeriesBSE := some sp }
      | none =>
        dispatchCalibrationData s channels rest none
          { slots with calibrationSeriesBSE := none }
    else if hdr.1 = 2 then
      match __parse_spectra s channels off with
      | some (sp, _, _, off2) =>
        dispatchCalibrationData s channels rest (some off2)
          { slots with calibrationSeriesLMP := some sp }
      | none =>
        dispatchCalibrationData s channels rest none
          { slots with calibrationSeriesLMP := none }
    else if hdr.1 = 3 then
      match __parse_spectra s channels off with
      | some (sp, _, _, off2) =>
        dispatchCalibrationData s channels rest (some off2)
          { slots with calibrationSeriesFO := some sp }
      | none =>
        dispatchCalibrationData s channels rest none
          { slots with calibrationSeriesFO := none }
    else dispatchCalibrationData s channels rest (some off) slots

/-! ## Spectral derivations (consumer-facing) -/

/-- The metadata fields `__normalise_spectrum` reads, as exact rationals
standing for the float values. -/
structure NormMeta where
  splice1_wavelength : ℚ
  splice2_wavelength : ℚ
  intergrationTime_ms : ℚ
  swir1Gain : ℚ
  swir2Gain : ℚ

/-- Python `int(…)` on a float: truncation toward zero. -/
def pyIntOfRat (q : ℚ) : Int :=
  if 0 ≤ q then q.num / (q.den : Int) else -((-q.num) / (q.den : Int))

/-- `ASDFile.__normalise_spectrum` (source lines 1054–1062): divide the
region below `int(splice1_wavelength)` by the integration time, scale the
region `[splice1, splice2)` by `swir1Gain / 2048`, and scale the region
from `int(splice2_wavelength)` on by `swir2Gain / 2048`.  (The splice
indices are non-negative in this format; Python's negative-index slice
semantics are not involved.) -/
def __normalise_spectrum (md : NormMeta) (sepctra : List ℚ) : List ℚ :=
  ((sepctra.take (pyIntOfRat md.splice1_wavelength).toNat).map
      (fun x => x / md.intergrationTime_ms)) ++
  (((sepctra.drop (pyIntOfRat md.splice1_wavelength).toNat).take
        ((pyIntOfRat md.splice2_wavelength).toNat -
          (pyIntOfRat md.splice1_wavelength).toNat)).map
      (fun x => x * md.swir1Gain / 2048)) ++
  ((sepctra.drop (pyIntOfRat md.splice2_wavelength).toNat).map
      (fun x => x * md.swir2Gain / 2048))

/-- The `reflectance` property (source lines 1020–1035).  For version ≥ 2
the guard `self.metadata.referenceTime > 0` compares a `datetime` object
(line 270 converts the field) with an int and raises `TypeError`; even
were the guard passed, `np.divide(self.__normalise_spectrum(self.spectrumData),
self.__normalise_spectrum(self.referenceData, self.metadata), where=…)`
calls `__normalise_spectrum` with two data arguments while the method
(line 1054) takes one, and passes namedtuples where arrays are expected
(`.copy()` fails) — each raising.  Every such exception is caught by the
property's `except`, which returns `None`; in the `else` branch
`return reflectance` reads an unbound local, likewise caught.  For
version < 2, `None` is returned directly.  Hence every path yields
`None`: no reflectance values are ever produced. -/
def reflectanceProperty (asdFileVersion : Int) (md : Metadata)
    (spectrumData referenceData : Option SpectrumData) : Option (List ℚ) :=
  if 2 ≤ asdFileVersion then
    if 0 < md.referenceTime ∧ md.dataType = 1 then none else none
  else none

/-! ## Dynamic attribute dispatch -/

/-- What `ASDFile.__getattr__` returns for a looked-up name: one of the
five special dispatches, or Python `None` for everything else. -/
inductive GetattrOutcome where
  | getReflectance
  | getRadiance
  | getWhiteReference
  | rawSpectrumData
  | refAttribute
  | pyNone
deriving DecidableEq

/-- `ASDFile.__getattr__` (source lines 1002–1015): invoked only for
attribute names that fail normal lookup; the five specially dispatched
names map to their handlers, every other name falls through to
`return None` instead of raising `AttributeError`. -/
def __getattr__ (item : String) : GetattrOutcome :=
  if item = "reflectance" then GetattrOutcome.getReflectance
  else if item = "radiance" then GetattrOutcome.getRadiance
  else if item = "white_reference" then GetattrOutcome.getWhiteReference
  else if item = "raw" then GetattrOutcome.rawSpectrumData
  else if item = "ref" then GetattrOutcome.refAttribute
  else GetattrOutcome.pyNone

theorem packBytesFixed_length (n : Nat) (b : List Nat) :
    (packBytesFixed n b).length = n := by
  unfold packBytesFixed
  simp [List.length_append, List.length_take, List.length_replicate]
  omega

theorem packI8_length (i : Int) (bs : List Nat) (h : packI8 i = some bs) :
    bs.length = 1 := by
  unfold packI8 at h
  split at h
  · cases h; rfl
  · cases h

theorem packI16_length (i : Int) (bs : List Nat) (h : packI16 i = some bs) :
    bs.length = 2 := by
  unfold packI16 at h
  split at h
  · cases h; rfl
  · cases h

theorem packU16_length (n : Nat) (bs : List Nat) (h : packU16 n = some bs) :
    bs.length = 2 := by
  unfold packU16 at h
  split at h
  · cases h; rfl
  · cases h

theorem packI32_length (i : Int) (bs : List Nat) (h : packI32 i = some bs) :
    bs.length = 4 := by
  unfold packI32 at h
  split at h
  · cases h; rfl
  · cases h

theorem packU32_length (n : Nat) (bs : List Nat) (h : packU32 n = some bs) :
    bs.length = 4 := by
  unfold packU32 at h
  split at h
  · cases h; rfl
  · cases h

theorem packFloatCell_length (n : Nat) (b bs : List Nat)
    (h : packFloatCell n b = some bs) : bs.length = n := by
  unfold packFloatCell at h
  split at h
  · cases h; omega
  · cases h

/-- Decoding the two bytes emitted by `packI16` gives back the packed value. -/
theorem i16_packI16 (i : Int) (b0 b1 : Nat) (h : packI16 i = some [b0, b1]) :
    asInt16 (u16 b0 b1) = i := by
  unfold packI16 enc16 at h
  split at h
  · rename_i hr
    unfold int16Range at hr
    simp only [Option.some.injEq, List.cons.injEq, and_true] at h
    obtain ⟨h0, h1⟩ := h
    subst h0; subst h1
    unfold u16 asInt16
    split <;> omega
  · cases h

theorem utf8Decode_encodeChar_append (c : Nat) (bs rest : List Nat)
    (h : utf8EncodeChar c = some bs) :
    utf8Decode (bs ++ rest) = (utf8Decode rest).map (fun r => c :: r) := by
  unfold utf8EncodeChar at h
  split at h
  · -- one byte
    rename_i h1
    injection h with h
    subst h
    simp only [List.cons_append, List.nil_append, utf8Decode]
    rw [if_pos h1]
  · split at h
    · -- two bytes
      rename_i h1 h2
      injection h with h
      subst h
      simp only [List.cons_append, List.nil_append, utf8Decode, byteAt,
        List.getD_cons_zero, List.getD_cons_succ, List.drop_succ_cons,
        List.drop_zero, List.length_cons]
      rw [if_neg (by omega), if_pos (by omega : 192 ≤ 192 + c / 64 ∧ 192 + c / 64 ≤ 223),
        if_pos (by omega), if_pos (by omega)]
      have hv : (192 + c / 64 - 192) * 64 + (128 + c % 64 - 128) = c := by omega
      rw [hv]
    · split at h
      · split at h
        · cases h
        · -- three bytes
          rename_i h1 h2 h3 h4
          injection h with h
          subst h
          simp only [List.cons_append, List.nil_append, utf8Decode, byteAt,
            List.getD_cons_zero, List.getD_cons_succ, List.drop_succ_cons,
            List.drop_zero, List.length_cons]
          rw [if_neg (by omega),
            if_neg (by omega : ¬ (192 ≤ 224 + c / 4096 ∧ 224 + c / 4096 ≤ 223)),
            if_pos (by omega : 224 ≤ 224 + c / 4096 ∧ 224 + c / 4096 ≤ 239),
            if_pos (by omega), if_pos (by omega)]
          have hv : (224 + c / 4096 - 224) * 4096 + (128 + c / 64 % 64 - 128) * 64 +
              (128 + c % 64 - 128) = c := by omega
          rw [hv]
      · split at h
        · -- four bytes
          rename_i h1 h2 h3 h4
          injection h with h
          subst h
          simp only [List.cons_append, List.nil_append, utf8Decode, byteAt,
            List.getD_cons_zero, List.getD_cons_succ, List.drop_succ_cons,
            List.drop_zero, List.length_cons]
          rw [if_neg (by omega),
            if_neg (by omega : ¬ (192 ≤ 240 + c / 262144 ∧ 240 + c / 262144 ≤ 223)),
            if_neg (by omega : ¬ (224 ≤ 240 + c / 262144 ∧ 240 + c / 262144 ≤ 239)),
            if_pos (by omega : 240 ≤ 240 + c / 262144 ∧ 240 + c / 262144 ≤ 247),
            if_pos (by omega), if_pos (by omega)]
          have hv : (240 + c / 262144 - 240) * 262144 + (128 + c / 4096 % 64 - 128) * 4096 +
              (128 + c / 64 % 64 - 128) * 64 + (128 + c % 64 - 128) = c := by omega
          rw [hv]
        · cases h

/-- Decoding any successful encoding recovers the original code points. -/
theorem utf8Decode_utf8EncodeList (cps bs : List Nat)
    (h : utf8EncodeList cps = some bs) : utf8Decode bs = some cps := by
  induction cps generalizing bs with
  | nil =>
    unfold utf8EncodeList at h
    injection h with h
    subst h
    simp [utf8Decode]
  | cons c t ih =>
    unfold utf8EncodeList at h
    rcases hb : utf8EncodeChar c with _ | b
    · rw [hb] at h; cases h
    · rw [hb] at h
      rcases hr : utf8EncodeList t with _ | r
      · rw [hr] at h; cases h
      · rw [hr] at h
        simp at h
        subst h
        rw [utf8Decode_encodeChar_append c b r hb, ih r hr]
        rfl

/-- Encoding a run of `n` ASCII `a` characters yields the same `n` bytes. -/
theorem utf8EncodeList_replicate97 (n : Nat) :
    utf8EncodeList (List.replicate n 97) = some (List.replicate n 97) := by
  induction n with
  | zero => rfl
  | succ n ih =>
    simp only [List.replicate_succ, utf8EncodeList, utf8EncodeChar]
    rw [if_pos (by omega)]
    rw [ih]
    rfl

/-- C5: for every 2-byte input, the boolean decoder succeeds exactly on the
sentinels `FF FF` (yielding `True`) and `00 00` (yielding `False`); every
other 2-byte pattern fails (the `ValueError` raised for it is caught and
surfaced as the `None` failure result). -/
theorem bool_codec_sentinels (b0 b1 : Nat) :
    (__parse_Bool [b0, b1] 0 = some (true, 2) ↔ b0 = 255 ∧ b1 = 255) ∧
    (__parse_Bool [b0, b1] 0 = some (false, 2) ↔ b0 = 0 ∧ b1 = 0) ∧
    (¬ ((b0 = 255 ∧ b1 = 255) ∨ (b0 = 0 ∧ b1 = 0)) →
      __parse_Bool [b0, b1] 0 = none) := by
  unfold __parse_Bool
  rw [if_pos (by simp : 0 < ([b0, b1] : List Nat).length)]
  have hs : sliceAt [b0, b1] 0 2 = [b0, b1] := by simp [sliceAt]
  rw [hs]
  by_cases h1 : ([b0, b1] : List Nat) = [255, 255]
  · rw [if_pos h1]
    simp_all
  · rw [if_neg h1]
    by_cases h2 : ([b0, b1] : List Nat) = [0, 0]
    · rw [if_pos h2]
      simp_all
    · rw [if_neg h2]
      simp_all

/-- Witness for C5 at the concrete non-sentinel input `07 07`. -/
theorem bool_codec_sentinels_witness : __parse_Bool [7, 7] 0 = none :=
  (bool_codec_sentinels 7 7).2.2 (by decide)

/-- C6 counterexample: for the 32768-character string `'a' * 32768`, the
`bstr` encoder itself fails (`struct.pack('h', 32768)` raises), so decoding
the encoding cannot reproduce the string — the claimed law does not hold
for *every* string. -/
theorem wrap_bstr_too_long (s bstr : List Nat)
    (hb : utf8EncodeList s = some bstr) (hlen : 32768 ≤ bstr.length) :
    __wrap_bstr s = none := by
  unfold __wrap_bstr
  rw [hb]
  have hp : packI16 (bstr.length : Int) = none := by
    unfold packI16
    rw [if_neg (by unfold int16Range; omega)]
  simp [hp]

theorem bstr_roundtrip_counterexample :
    ¬ ∃ p : List Nat × Nat, __wrap_bstr (List.replicate 32768 97) = some p ∧
      (__parse_bstr p.1 0).map Prod.fst = some (List.replicate 32768 97) := by
  rintro ⟨p, hw, -⟩
  rw [wrap_bstr_too_long (List.replicate 32768 97) (List.replicate 32768 97)
    (utf8EncodeList_replicate97 32768) (by rw [List.length_replicate])] at hw
  cases hw

/-- C6 (amended): for every string whose UTF-8 encoding the `bstr` encoder
accepts (i.e. whose UTF-8 byte length is at most 32767), decoding the
encoding yields the string back, together with the encoded length. -/
theorem bstr_roundtrip (s enc : List Nat) (n : Nat)
    (h : __wrap_bstr s = some (enc, n)) :
    __parse_bstr enc 0 = some (s, n) := by
  unfold __wrap_bstr at h
  rcases hb : utf8EncodeList s with _ | bstr
  · rw [hb] at h; cases h
  · rw [hb] at h
    simp at h
    rcases hp : packI16 ((bstr.length : Int)) with _ | szb
    · rw [hp] at h; simp at h
    · rw [hp] at h
      simp at h
      obtain ⟨henc, hn⟩ := h
      subst henc
      subst hn
      have hlen2 : szb.length = 2 := packI16_length _ _ hp
      rcases szb with _ | ⟨a, szb1⟩
      · simp at hlen2
      rcases szb1 with _ | ⟨b, szb2⟩
      · simp at hlen2
      rcases szb2 with _ | ⟨x, t⟩
      · clear hlen2
        have hdec : asInt16 (u16 a b) = (bstr.length : Int) := i16_packI16 _ a b hp
        have hi : i16At [a, b] 0 = (bstr.length : Int) := by
          unfold i16At u16At byteAt
          simpa using hdec
        unfold __parse_bstr
        rw [if_pos (by simp)]
        have hr1 : readBytesAt ([a, b] ++ bstr) 0 2 = some [a, b] := by
          unfold readBytesAt sliceAt
          rw [if_pos (by simp)]
          simp
        rw [hr1]
        dsimp only
        rw [hi]
        rw [if_pos (by omega)]
        have hr2 : readBytesAt ([a, b] ++ bstr) (0 + 2) ((bstr.length : Int)).toNat =
            some bstr := by
          unfold readBytesAt sliceAt
          rw [if_pos (by simp; omega)]
          simp
        rw [hr2]
        dsimp only
        rw [utf8Decode_utf8EncodeList s bstr hb]
        simp
      · simp at hlen2

/-- C9: the Metadata record occupies exactly 481 bytes after the 3-byte
version tag: a successful decode consumes exactly 481 bytes (so a decode
started at offset 3 ends at 484), and the encoder either produces exactly
481 bytes or reports an error (`None` / a raised `struct.error`) instead
of emitting output of another length. -/
theorem metadata_record_481 :
    (∀ (s : List Nat) (offset : Nat) (md : Metadata) (offset2 : Nat),
        __parse_metadata s offset = some (md, offset2) → offset2 = offset + 481) ∧
    (∀ (md : Metadata) (bs : List Nat) (L : Nat),
        __wrap_metadata md = some (bs, L) → bs.length = 481 ∧ L = 481) := by
  constructor
  · intro s offset md offset2 h
    unfold __parse_metadata at h
    split at h
    · split at h
      · rcases hm : metadataOfBlock (sliceAt s offset 481) (s.take 484) with _ | md2
        · rw [hm] at h; cases h
        · rw [hm] at h
          simp at h
          exact h.2.symm
      · cases h
    · cases h
  · intro md bs L h
    unfold __wrap_metadata at h
    rcases hp : packMetadataFmt md with _ | bts
    · rw [hp] at h; cases h
    · rw [hp] at h
      dsimp only at h
      by_cases hlen : bts.length = 481
      · rw [if_pos hlen] at h
        simp at h
        obtain ⟨hb, hL⟩ := h
        subst hb
        exact ⟨hlen, hL.symm⟩
      · rw [if_neg hlen] at h
        cases h

/-- Witness for C9: at the sample file, the metadata decode started at
offset 3 ends at `3 + 481`, and the encoder emits exactly 481 bytes for
the decoded record. -/
theorem metadata_record_481_witness :
    (__parse_metadata sampleStream 3).map Prod.snd = some (3 + 481) ∧
    (__wrap_metadata sampleMd).map (fun p => p.1.length) = some 481 := by
  constructor
  · have h : __parse_metadata sampleStream 3 = some (sampleMd, 484) := by decide
    have h2 := (metadata_record_481.1) sampleStream 3 sampleMd 484 h
    rw [h]
    simpa using h2
  · have h : __wrap_metadata sampleMd = some (sampleMdBytes, 481) := by decide
    have h2 := (metadata_record_481.2) sampleMd sampleMdBytes 481 h
    rw [h]
    simpa using h2.1

/-- C2 (evaluation at the failing input): for the 3-byte stream `"ASD"`,
whose mandatory metadata section cannot be decoded at all, `read` still
returns `True` — `readSuccess` is set unconditionally at source line 150 —
while the document holds no metadata and no spectrum. The claim says a
mandatory-section failure makes `read` report failure. -/
theorem read_reports_success_on_metadata_failure :
    read_v1 [65, 83, 68] = (true, ⟨1, none, none, false⟩) := by decide

/-- C3 (evaluation at the failing input): at the 492-byte sample file,
the decoded metadata record's `byteStream` is the file's first 484 bytes —
including the 3-byte version tag — of recorded length 484, not the
481-byte slice at offsets 3..483 it was decoded from; and the spectrum
record's `byteStream` is the (here empty) byte run *after* the spectrum,
not the spectrum's own 8 bytes at offsets 484..491. -/
theorem recorded_byteStream_mismatch :
    ((read_v1 sampleStream).2.metadata.map Metadata.byteStream =
      some (sampleStream.take 484)) ∧
    ((read_v1 sampleStream).2.metadata.map Metadata.byteStreamLength = some 484) ∧
    (sampleStream.take 484 ≠ sliceAt sampleStream 3 481) ∧
    ((sliceAt sampleStream 3 481).length = 481) ∧
    ((read_v1 sampleStream).2.spectrumData.map SpectrumData.byteStream = some []) ∧
    (sliceAt sampleStream 484 8 = [1, 2, 3, 4, 5, 6, 7, 8]) := by decide

set_option maxHeartbeats 4000000 in
/-- C1 (evaluation at the failing input): for the document decoded from
the 496-byte sample file (the sample file plus 4 trailing junk bytes),
`write` emits 492 bytes, but the sections' recorded raw byte lengths sum
to 484 + 4 = 488 (the metadata record stores the first 484 bytes of the
file including the version tag; the spectrum record stores the slice
*after* the spectrum); and re-decoding the encoded output does not
reproduce the document field-for-field (the re-decoded spectrum record's
byte slice is empty, the original's is the 4 junk bytes). -/
theorem roundtrip_claims_fail_on_sample :
    ((write_v1 (read_v1 sampleStreamTrailing).2).map List.length = some 492) ∧
    ((read_v1 sampleStreamTrailing).2.metadata.map Metadata.byteStreamLength =
      some 484) ∧
    ((read_v1 sampleStreamTrailing).2.spectrumData.map SpectrumData.byteStreamLength =
      some 4) ∧
    ((write_v1 (read_v1 sampleStreamTrailing).2).map (fun out => (read_v1 out).2) ≠
      some (read_v1 sampleStreamTrailing).2) := by decide

/-- Witness for C6 at a concrete string containing a 1-, 2-, 3- and 4-byte
UTF-8 character (`h`, `é`, `€`, `𐍈`). -/
theorem bstr_roundtrip_witness :
    __parse_bstr [10, 0, 104, 195, 169, 226, 130, 172, 240, 144, 141, 136] 0 =
      some ([104, 233, 8364, 66376], 12) :=
  bstr_roundtrip [104, 233, 8364, 66376]
    [10, 0, 104, 195, 169, 226, 130, 172, 240, 144, 141, 136] 12 (by decide)

/-- C4: for a calibration descriptor list with type tags `[2, 0, 2]`, the
three spectra are read from consecutive stream positions in descriptor
file order, the Lamp slot ends holding the spectrum read for the *third*
descriptor (the later writer with the same tag overwrites the first), the
Absolute slot holds the spectrum read for the second descriptor, and the
Base and Fiber slots stay empty. -/
theorem calibration_dispatch_last_writer_wins
    (s : List Nat) (channels off : Nat)
    (n1 n2 n3 : List Nat) (i1 i2 i3 ga1 ga2 gb1 gb2 gc1 gc2 : Int)
    (sp1 sp2 sp3 : List (List Nat)) (a1 a2 a3 : List Nat)
    (L1 L2 L3 o1 o2 o3 : Nat)
    (h1 : __parse_spectra s channels off = some (sp1, a1, L1, o1))
    (h2 : __parse_spectra s channels o1 = some (sp2, a2, L2, o2))
    (h3 : __parse_spectra s channels o2 = some (sp3, a3, L3, o3)) :
    dispatchCalibrationData s channels
      [(2, n1, i1, ga1, ga2), (0, n2, i2, gb1, gb2), (2, n3, i3, gc1, gc2)]
      (some off) ⟨none, none, none, none⟩ =
      (⟨some sp2, none, some sp3, none⟩, some o3) := by
  simp [dispatchCalibrationData, h1, h2, h3]

/-- Witness for C4 on a concrete 32-byte stream with `channels = 1`: the
three spectra at offsets 0, 8, 16 are consumed in order; Lamp ends with
the third (bytes 16–23), Absolute with the second (bytes 8–15). -/
theorem calibration_dispatch_witness :
    dispatchCalibrationData (List.range 32) 1
      [(2, [], 0, 0, 0), (0, [], 0, 0, 0), (2, [], 0, 0, 0)]
      (some 0) ⟨none, none, none, none⟩ =
      (⟨some [[8, 9, 10, 11, 12, 13, 14, 15]], none,
        some [[16, 17, 18, 19, 20, 21, 22, 23]], none⟩, some 24) :=
  calibration_dispatch_last_writer_wins (List.range 32) 1 0
    [] [] [] 0 0 0 0 0 0 0 0 0
    [[0, 1, 2, 3, 4, 5, 6, 7]] [[8, 9, 10, 11, 12, 13, 14, 15]]
    [[16, 17, 18, 19, 20, 21, 22, 23]]
    [8, 9, 10, 11, 12, 13, 14, 15] [16, 17, 18, 19, 20, 21, 22, 23]
    [24, 25, 26, 27, 28, 29, 30, 31]
    8 8 8 8 16 24 (by decide) (by decide) (by decide)

/-- C7: with splice indices 3 and 7, integration time 2, `swir1Gain` 4096
and `swir2Gain` 2048, normalising the 10-channel spectrum `[2, …, 2]`
yields `[1, 1, 1, 4, 4, 4, 4, 2, 2, 2]`: the region below splice1 is
divided by the integration time, the region `[splice1, splice2)` is
scaled by `4096 / 2048 = 2`, and the region from splice2 on is scaled by
`2048 / 2048 = 1`. -/
theorem normalise_spectrum_boundaries :
    __normalise_spectrum ⟨3, 7, 2, 4096, 2048⟩ [2, 2, 2, 2, 2, 2, 2, 2, 2, 2] =
      [1, 1, 1, 4, 4, 4, 4, 2, 2, 2] := by
  have h1 : (pyIntOfRat (3 : ℚ)).toNat = 3 := by
    norm_num [pyIntOfRat]
    rfl
  have h2 : (pyIntOfRat (7 : ℚ)).toNat = 7 := by
    norm_num [pyIntOfRat]
    rfl
  simp only [__normalise_spectrum]
  norm_num [h1, h2]

/-- C8 (evaluation of the code): the `reflectance` property yields no
value for any document — in particular it never produces a NaN/Inf at a
zero-reference channel, but not because the division is masked: every
evaluation path raises inside the property and the `except` returns
`None` (the guard compares a `datetime` with an int, and the computation
passes a second argument to the one-argument `__normalise_spectrum`). -/
theorem reflectance_always_none
    (asdFileVersion : Int) (md : Metadata)
    (spectrumData referenceData : Option SpectrumData) :
    reflectanceProperty asdFileVersion md spectrumData referenceData = none := by
  unfold reflectanceProperty
  split
  · split <;> rfl
  · rfl

/-- C10: every attribute name outside the five specially dispatched ones
(`reflectance`, `radiance`, `white_reference`, `raw`, `ref`) falls
through `__getattr__` to Python `None` instead of raising
`AttributeError`. -/
theorem getattr_fallback_none (item : String)
    (h : item ∉ (["reflectance", "radiance", "white_reference", "raw",
      "ref"] : List String)) :
    __getattr__ item = GetattrOutcome.pyNone := by
  simp only [List.mem_cons, List.not_mem_nil, or_false, not_or] at h
  obtain ⟨h1, h2, h3, h4, h5⟩ := h
  simp [__getattr__, h1, h2, h3, h4, h5]

/-- Witness for C10 at the undefined attribute name `"wavelengths"`. -/
theorem getattr_fallback_none_witness :
    __getattr__ "wavelengths" = GetattrOutcome.pyNone :=
  getattr_fallback_none "wavelengths" (by decide)

end ASDFile
